import Mathlib

/-!
Shallow embedding of `src/futures_bot.py` (crypto_bot repository).

The program is a thin facade (`BasicBot`) over a remote futures-trading
client, two pure formatting helpers (`format_balance`,
`format_position_info`) and a web front-end (`main`).  Each facade method
performs one remote call, catches the client exception type
(`BinanceAPIException`), logs, and returns either the remote response or a
sentinel failure value (`None` / `False`).

Modelling choices:
- A remote call's behaviour is an explicit argument.  `RemoteOutcome α`
  is the outcome of one remote invocation: a successful response `ok v`,
  a raised `BinanceAPIException` with message (`apiError msg`), or an
  exception of any other type (`otherExn msg`).
- A facade method returns `Except String (res × List LogEntry)`:
  `Except.error m` is an exception of message `m` propagating out of the
  method uncaught; `Except.ok` pairs the Python return value with the log
  entries the method appended (level and rendered message).
- Python `float(s)` on finite decimal literals is modelled exactly by
  `pyFloat : String → Option Rat` (`none` = `ValueError`); the order
  responses, which the code never inspects, are modelled as opaque
  strings (their rendered form).
-/

/-- Log level of one log entry (`logger.info` / `logger.error`). -/
inductive LogLevel where
  | info
  | error
deriving DecidableEq, Repr

/-- One log entry: level and fully rendered message. -/
structure LogEntry where
  level : LogLevel
  msg : String
deriving DecidableEq, Repr

/-- Outcome of one remote client call: successful response, a raised
`BinanceAPIException` carrying `str(e)`, or an exception of any other
type (network error, `KeyError`, ...) carrying its message. -/
inductive RemoteOutcome (α : Type) where
  | ok (v : α)
  | apiError (msg : String)
  | otherExn (msg : String)
deriving DecidableEq, Repr

/-- One entry of `exchange_info['symbols']`; only the `'symbol'` field is
read by the code. -/
structure SymbolInfo where
  symbol : String
deriving DecidableEq, Repr

/-- The `futures_exchange_info()` response; only the `'symbols'` list is
read by the code. -/
structure ExchangeInfo where
  symbols : List SymbolInfo
deriving DecidableEq, Repr

/-- One balance record, as consumed by `format_balance`: the `'asset'`
and `'balance'` fields (both strings in the API response). -/
structure BalanceRecord where
  asset : String
  balance : String
deriving DecidableEq, Repr

/-- One position record: the four fields interpreted by the code plus the
`'symbol'` field used for filtering.  All are strings in the API
response. -/
structure PositionRecord where
  symbol : String
  positionAmt : String
  entryPrice : String
  unRealizedProfit : String
deriving DecidableEq, Repr

/-- The keyword arguments the facade passes to
`client.futures_create_order`; absent keyword arguments are `none`. -/
structure OrderRequest where
  symbol : String
  side : String
  type : String
  timeInForce : Option String
  quantity : Rat
  price : Option Rat
  stopPrice : Option Rat
  workingType : Option String
deriving DecidableEq, Repr

/-- Result type of a facade method: `Except.error m` is an uncaught
exception propagating out; `Except.ok (r, logs)` is a normal return of
`r` with the produced log entries. -/
def FacadeResult (α : Type) : Type := Except String (α × List LogEntry)

/-- The Python return value of a facade method, `none` when an exception
propagated out (projection used to state claims). -/
def facadeValue {α : Type} (r : FacadeResult α) : Option α :=
  (Except.toOption r).map Prod.fst

/-- The log entries a facade method produced, `none` when an exception
propagated out (projection used to state claims). -/
def facadeLogs {α : Type} (r : FacadeResult α) : Option (List LogEntry) :=
  (Except.toOption r).map Prod.snd

namespace BasicBot

/-- `BasicBot.get_account_balance`: returns the
`futures_account_balance()` response, or `None` on
`BinanceAPIException`. -/
def get_account_balance {α : Type} (remote : RemoteOutcome α) :
    FacadeResult (Option α) :=
  match remote with
  | .ok balance =>
      .ok (some balance, [⟨.info, "Account balance retrieved successfully"⟩])
  | .apiError e =>
      .ok (none, [⟨.error, "Failed to get account balance: " ++ e⟩])
  | .otherExn e => .error e

/-- `BasicBot.validate_symbol`: fetches `futures_exchange_info()`, checks
membership of the symbol in the `'symbol'` fields; `False` on
`BinanceAPIException`. -/
def validate_symbol (remote : RemoteOutcome ExchangeInfo) (symbol : String) :
    FacadeResult Bool :=
  match remote with
  | .ok exchange_info =>
      let symbols := exchange_info.symbols.map SymbolInfo.symbol
      if symbol ∈ symbols then
        .ok (true, [⟨.info, "Symbol " ++ symbol ++ " validated for futures trading"⟩])
      else
        .ok (false, [⟨.error, "Invalid futures symbol: " ++ symbol⟩])
  | .apiError e =>
      .ok (false, [⟨.error, "Symbol validation error: " ++ e⟩])
  | .otherExn e => .error e

/-- The order request `place_market_order` submits. -/
def market_order_request (symbol side : String) (quantity : Rat) : OrderRequest :=
  { symbol := symbol, side := side, type := "MARKET", timeInForce := none,
    quantity := quantity, price := none, stopPrice := none, workingType := none }

/-- `BasicBot.place_market_order`: submits a MARKET order; the response is
opaque (rendered as a string); `None` on `BinanceAPIException`. -/
def place_market_order (remote : OrderRequest → RemoteOutcome String)
    (symbol side : String) (quantity : Rat) : FacadeResult (Option String) :=
  match remote (market_order_request symbol side quantity) with
  | .ok order =>
      .ok (some order, [⟨.info, "Futures market order placed: " ++ order⟩])
  | .apiError e =>
      .ok (none, [⟨.error, "Futures market order error: " ++ e⟩])
  | .otherExn e => .error e

/-- The order request `place_limit_order` submits. -/
def limit_order_request (symbol side : String) (quantity price : Rat) :
    OrderRequest :=
  { symbol := symbol, side := side, type := "LIMIT", timeInForce := some "GTC",
    quantity := quantity, price := some price, stopPrice := none,
    workingType := none }

/-- `BasicBot.place_limit_order`: submits a LIMIT GTC order; `None` on
`BinanceAPIException`. -/
def place_limit_order (remote : OrderRequest → RemoteOutcome String)
    (symbol side : String) (quantity price : Rat) : FacadeResult (Option String) :=
  match remote (limit_order_request symbol side quantity price) with
  | .ok order =>
      .ok (some order, [⟨.info, "Futures limit order placed: " ++ order⟩])
  | .apiError e =>
      .ok (none, [⟨.error, "Futures limit order error: " ++ e⟩])
  | .otherExn e => .error e

/-- The order request `place_stop_limit_order` submits. -/
def stop_limit_order_request (symbol side : String)
    (quantity stop_price limit_price : Rat) : OrderRequest :=
  { symbol := symbol, side := side, type := "STOP", timeInForce := some "GTC",
    quantity := quantity, price := some limit_price, stopPrice := some stop_price,
    workingType := some "MARK_PRICE" }

/-- `BasicBot.place_stop_limit_order`: submits a STOP GTC order with
mark-price working type; `None` on `BinanceAPIException`. -/
def place_stop_limit_order (remote : OrderRequest → RemoteOutcome String)
    (symbol side : String) (quantity stop_price limit_price : Rat) :
    FacadeResult (Option String) :=
  match remote (stop_limit_order_request symbol side quantity stop_price limit_price) with
  | .ok order =>
      .ok (some order, [⟨.info, "Futures stop-limit order placed: " ++ order⟩])
  | .apiError e =>
      .ok (none, [⟨.error, "Futures stop-limit order error: " ++ e⟩])
  | .otherExn e => .error e

/-- `BasicBot.get_order_status`: returns the `futures_get_order`
response; `None` on `BinanceAPIException`. -/
def get_order_status (remote : RemoteOutcome String) :
    FacadeResult (Option String) :=
  match remote with
  | .ok status =>
      .ok (some status, [⟨.info, "Futures order status: " ++ status⟩])
  | .apiError e =>
      .ok (none, [⟨.error, "Futures order status error: " ++ e⟩])
  | .otherExn e => .error e

/-- `BasicBot.get_position_info`: returns the
`futures_position_information()` response, filtered to the records whose
`'symbol'` equals the argument when the argument is truthy (a non-`None`,
nonempty string, per the Python `if symbol:` test); `None` on
`BinanceAPIException`. -/
def get_position_info (remote : RemoteOutcome (List PositionRecord))
    (symbol : Option String) : FacadeResult (Option (List PositionRecord)) :=
  match remote with
  | .ok response =>
      let positions :=
        match symbol with
        | some s => if s = "" then response
                    else response.filter (fun p => p.symbol = s)
        | none => response
      .ok (some positions, [⟨.info, "Position information retrieved"⟩])
  | .apiError e =>
      .ok (none, [⟨.error, "Position information error: " ++ e⟩])
  | .otherExn e => .error e

end BasicBot

/-- Numeric value of a list of decimal digit characters. -/
def digitsToNat (ds : List Char) : Nat :=
  ds.foldl (fun n c => 10 * n + (c.toNat - 48)) 0

/-- Python `float(s)` on finite decimal literals, as an exact rational:
optional sign, digits with an optional fractional part (at least one
digit overall), and an optional exponent part.  `none` models a raised
`ValueError`. -/
def pyFloat (s : String) : Option Rat :=
  let cs0 := s.toList
  let sgn : Int := match cs0 with
    | '-' :: _ => -1
    | _ => 1
  let cs1 := match cs0 with
    | '+' :: rest => rest
    | '-' :: rest => rest
    | rest => rest
  let ip := cs1.takeWhile Char.isDigit
  let cs2 := cs1.dropWhile Char.isDigit
  let fp := match cs2 with
    | '.' :: rest => rest.takeWhile Char.isDigit
    | _ => []
  let cs3 := match cs2 with
    | '.' :: rest => rest.dropWhile Char.isDigit
    | rest => rest
  if ip.isEmpty && fp.isEmpty then none
  else
    let mant : Int := sgn * (digitsToNat (ip ++ fp) : Int)
    match cs3 with
    | [] => some (mkRat mant (10 ^ fp.length))
    | e :: rest =>
      if e = 'e' ∨ e = 'E' then
        let esgn : Int := match rest with
          | '-' :: _ => -1
          | _ => 1
        let rest1 := match rest with
          | '+' :: r => r
          | '-' :: r => r
          | r => r
        let ed := rest1.takeWhile Char.isDigit
        let rest2 := rest1.dropWhile Char.isDigit
        if ed.isEmpty ∨ !rest2.isEmpty then none
        else
          let ex : Int := esgn * (digitsToNat ed : Int) - (fp.length : Int)
          some (if 0 ≤ ex then mkRat (mant * 10 ^ ex.toNat) 1
                else mkRat mant (10 ^ (-ex).toNat))
      else none

/-- `format_balance`: one line per record whose balance is positive;
`Except.error` models the `ValueError` that `float` raises on an
unparseable balance string, propagating out. -/
def format_balance : List BalanceRecord → Except String String
  | [] => .ok ""
  | item :: rest =>
    match pyFloat item.balance with
    | none => .error ("could not convert string to float: " ++ item.balance)
    | some v =>
      match format_balance rest with
      | .error e => .error e
      | .ok tail =>
        if v > 0 then
          .ok ("Asset: " ++ item.asset ++ ", Balance: " ++ item.balance ++ "\n"
               ++ tail)
        else .ok tail

/-- The loop body of `format_position_info`: the concatenated blocks for
the records with nonzero position amount (`Except.error` models the
`ValueError` of `float` on an unparseable amount). -/
def format_position_blocks : List PositionRecord → Except String String
  | [] => .ok ""
  | position :: rest =>
    match pyFloat position.positionAmt with
    | none => .error ("could not convert string to float: " ++ position.positionAmt)
    | some v =>
      match format_position_blocks rest with
      | .error e => .error e
      | .ok tail =>
        if v ≠ 0 then
          .ok ("Symbol: " ++ position.symbol ++ "\n"
               ++ "Position Amount: " ++ position.positionAmt ++ "\n"
               ++ "Entry Price: " ++ position.entryPrice ++ "\n"
               ++ "Unrealized PnL: " ++ position.unRealizedProfit ++ "\n"
               ++ "-----------------------\n"
               ++ tail)
        else .ok tail

/-- `format_position_info`: the blocks for the nonzero positions, or the
fixed no-positions message when no block was produced. -/
def format_position_info (positions : List PositionRecord) : Except String String :=
  match format_position_blocks positions with
  | .error e => .error e
  | .ok formatted =>
    .ok (if formatted = "" then "No open positions found." else formatted)

/-! ## The web front-end (`main`) -/

/-- Result of the startup section of `main`: either the displayed error
followed by `return` (before the `BasicBot` client is constructed, so no
remote call can happen in that run), or the credentials the client is
constructed with. -/
inductive StartupResult where
  | halted (displayed : String)
  | proceeded (api_key api_secret : String)
deriving DecidableEq, Repr

/-- The startup section of `main`: reads the two environment variables
and halts when either is falsy (`if not API_KEY or not API_SECRET`: an
absent variable reads as `None`, and the empty string is also falsy). -/
def main_startup (env : String → Option String) : StartupResult :=
  match env "API_KEY", env "API_SECRET" with
  | some k, some s =>
    if k = "" ∨ s = "" then
      .halted "API Key or Secret not found in .env file!"
    else .proceeded k s
  | _, _ => .halted "API Key or Secret not found in .env file!"

/-- One front-end message (`st.success` / `st.error`). -/
inductive UiMsg where
  | success (msg : String)
  | error (msg : String)
deriving DecidableEq, Repr

/-- Outcome of one submit-button handler: the front-end messages shown,
the log entries appended, and whether `futures_create_order` was
invoked. -/
structure SubmitOutcome where
  ui : List UiMsg
  logs : List LogEntry
  order_call_made : Bool
deriving DecidableEq, Repr

/-- Whether a submit-button handler invoked `futures_create_order`
(an exception propagating out of the handler aborts it before any order
call: the only uncaught exception sites precede the order call or are the
order call itself, which is then counted in the `ok` branch). -/
def order_called (r : Except String SubmitOutcome) : Bool :=
  match r with
  | .ok out => out.order_call_made
  | .error _ => false

/-- The market-order submit handler of `main`: validates the symbol,
parses the quantity (`ValueError` caught as the invalid-input branch),
then places the order.  A successful order response is modelled as truthy
(`if order:`). -/
def submit_market_order (info_remote : RemoteOutcome ExchangeInfo)
    (order_remote : OrderRequest → RemoteOutcome String)
    (symbol side quantity : String) : Except String SubmitOutcome :=
  match BasicBot.validate_symbol info_remote symbol with
  | .error e => .error e
  | .ok (valid, vlogs) =>
    if !valid then
      .ok ⟨[.error "Invalid futures symbol!"], vlogs, false⟩
    else
      match pyFloat quantity with
      | none =>
        .ok ⟨[.error "Invalid quantity!"],
             vlogs ++ [⟨.error, "Invalid quantity input: " ++ quantity⟩], false⟩
      | some q =>
        match BasicBot.place_market_order order_remote symbol side q with
        | .error e => .error e
        | .ok (order, ologs) =>
          match order with
          | some o =>
            .ok ⟨[.success ("Futures Market Order placed: " ++ o)],
                 vlogs ++ ologs, true⟩
          | none =>
            .ok ⟨[.error "Failed to place market order. Check logs for details."],
                 vlogs ++ ologs, true⟩

/-- Rendering of an already-parsed numeric value inside a log line
(`logger.error` receives the converted value when a later conversion
fails); abstracted as the rational's rendering. -/
def numRepr (q : Rat) : String := toString q

/-- The limit-order submit handler of `main`: validates the symbol,
parses quantity then price (the first `ValueError` is caught as the
invalid-input branch), then places the order. -/
def submit_limit_order (info_remote : RemoteOutcome ExchangeInfo)
    (order_remote : OrderRequest → RemoteOutcome String)
    (symbol side quantity price : String) : Except String SubmitOutcome :=
  match BasicBot.validate_symbol info_remote symbol with
  | .error e => .error e
  | .ok (valid, vlogs) =>
    if !valid then
      .ok ⟨[.error "Invalid futures symbol!"], vlogs, false⟩
    else
      match pyFloat quantity with
      | none =>
        .ok ⟨[.error "Invalid quantity or price!"],
             vlogs ++ [⟨.error, "Invalid input - quantity: " ++ quantity
                        ++ ", price: " ++ price⟩], false⟩
      | some q =>
        match pyFloat price with
        | none =>
          .ok ⟨[.error "Invalid quantity or price!"],
               vlogs ++ [⟨.error, "Invalid input - quantity: " ++ numRepr q
                          ++ ", price: " ++ price⟩], false⟩
        | some p =>
          match BasicBot.place_limit_order order_remote symbol side q p with
          | .error e => .error e
          | .ok (order, ologs) =>
            match order with
            | some o =>
              .ok ⟨[.success ("Futures Limit Order placed: " ++ o)],
                   vlogs ++ ologs, true⟩
            | none =>
              .ok ⟨[.error "Failed to place limit order. Check logs for details."],
                   vlogs ++ ologs, true⟩

/-- The stop-limit-order submit handler of `main`: validates the symbol,
parses quantity, stop price, then limit price (the first `ValueError` is
caught as the invalid-input branch), then places the order. -/
def submit_stop_limit_order (info_remote : RemoteOutcome ExchangeInfo)
    (order_remote : OrderRequest → RemoteOutcome String)
    (symbol side quantity stop_price limit_price : String) :
    Except String SubmitOutcome :=
  match BasicBot.validate_symbol info_remote symbol with
  | .error e => .error e
  | .ok (valid, vlogs) =>
    if !valid then
      .ok ⟨[.error "Invalid futures symbol!"], vlogs, false⟩
    else
      match pyFloat quantity with
      | none =>
        .ok ⟨[.error "Invalid quantity, stop price, or limit price!"],
             vlogs ++ [⟨.error, "Invalid input - quantity: " ++ quantity
                        ++ ", stop_price: " ++ stop_price
                        ++ ", limit_price: " ++ limit_price⟩], false⟩
      | some q =>
        match pyFloat stop_price with
        | none =>
          .ok ⟨[.error "Invalid quantity, stop price, or limit price!"],
               vlogs ++ [⟨.error, "Invalid input - quantity: " ++ numRepr q
                          ++ ", stop_price: " ++ stop_price
                          ++ ", limit_price: " ++ limit_price⟩], false⟩
        | some sp =>
          match pyFloat limit_price with
          | none =>
            .ok ⟨[.error "Invalid quantity, stop price, or limit price!"],
                 vlogs ++ [⟨.error, "Invalid input - quantity: " ++ numRepr q
                            ++ ", stop_price: " ++ numRepr sp
                            ++ ", limit_price: " ++ limit_price⟩], false⟩
          | some lp =>
            match BasicBot.place_stop_limit_order order_remote symbol side q sp lp with
            | .error e => .error e
            | .ok (order, ologs) =>
              match order with
              | some o =>
                .ok ⟨[.success ("Futures Stop-Limit Order placed: " ++ o)],
                     vlogs ++ ologs, true⟩
              | none =>
                .ok ⟨[.error "Failed to place stop-limit order. Check logs for details."],
                     vlogs ++ ologs, true⟩


/-! ## Claim-side characterizations -/

/-- The line `format_balance` emits for one record: present exactly when
the balance parses to a positive number. -/
def balance_line (item : BalanceRecord) : Option String :=
  match pyFloat item.balance with
  | some v => if v > 0 then
      some ("Asset: " ++ item.asset ++ ", Balance: " ++ item.balance ++ "\n")
    else none
  | none => none

/-- The block `format_position_info` emits for one record: present
exactly when the position amount parses to a nonzero number. -/
def position_block (p : PositionRecord) : Option String :=
  match pyFloat p.positionAmt with
  | some v => if v ≠ 0 then
      some ("Symbol: " ++ p.symbol ++ "\n"
            ++ "Position Amount: " ++ p.positionAmt ++ "\n"
            ++ "Entry Price: " ++ p.entryPrice ++ "\n"
            ++ "Unrealized PnL: " ++ p.unRealizedProfit ++ "\n"
            ++ "-----------------------\n")
    else none
  | none => none

/-! ## Theorems for the claims -/

/-- C1: for every instrument list returned by the exchange-info call and
every symbol string, `validate_symbol` returns true iff the symbol occurs
among the `'symbol'` fields of the list entries; and on a raised API
error it returns false. -/
theorem C1_validate_symbol_membership :
    (∀ (ei : ExchangeInfo) (s : String),
      facadeValue (BasicBot.validate_symbol (.ok ei) s) =
        some (decide (s ∈ ei.symbols.map SymbolInfo.symbol))) ∧
    (∀ (e s : String),
      facadeValue (BasicBot.validate_symbol (.apiError e) s) = some false) := by
  constructor
  · intro ei s
    by_cases h : s ∈ ei.symbols.map SymbolInfo.symbol <;>
      simp [BasicBot.validate_symbol, facadeValue, Except.toOption, h]
  · intro e s
    rfl

/-- C2: for each facade operation, a raised `BinanceAPIException` with
message `e` yields the sentinel no-result value (`None`, `False` for
`validate_symbol`) and exactly one error log entry, whose message is the
operation's fixed text followed by `e` (hence contains `e`). -/
theorem C2_api_error_sentinel_and_single_log :
    (∀ (e : String),
      BasicBot.get_account_balance (α := String) (.apiError e) =
        .ok (none, [⟨.error, "Failed to get account balance: " ++ e⟩])) ∧
    (∀ (e s : String),
      BasicBot.validate_symbol (.apiError e) s =
        .ok (false, [⟨.error, "Symbol validation error: " ++ e⟩])) ∧
    (∀ (e : String) (remote : OrderRequest → RemoteOutcome String)
        (sym side : String) (q : Rat),
      (∀ r, remote r = .apiError e) →
      BasicBot.place_market_order remote sym side q =
        .ok (none, [⟨.error, "Futures market order error: " ++ e⟩])) ∧
    (∀ (e : String) (remote : OrderRequest → RemoteOutcome String)
        (sym side : String) (q p : Rat),
      (∀ r, remote r = .apiError e) →
      BasicBot.place_limit_order remote sym side q p =
        .ok (none, [⟨.error, "Futures limit order error: " ++ e⟩])) ∧
    (∀ (e : String) (remote : OrderRequest → RemoteOutcome String)
        (sym side : String) (q sp lp : Rat),
      (∀ r, remote r = .apiError e) →
      BasicBot.place_stop_limit_order remote sym side q sp lp =
        .ok (none, [⟨.error, "Futures stop-limit order error: " ++ e⟩])) ∧
    (∀ (e : String),
      BasicBot.get_order_status (.apiError e) =
        .ok (none, [⟨.error, "Futures order status error: " ++ e⟩])) ∧
    (∀ (e : String) (s : Option String),
      BasicBot.get_position_info (.apiError e) s =
        .ok (none, [⟨.error, "Position information error: " ++ e⟩])) := by
  refine ⟨fun e => rfl, fun e s => rfl, ?_, ?_, ?_, fun e => rfl, fun e s => rfl⟩
  · intro e remote sym side q h
    simp [BasicBot.place_market_order, h]
  · intro e remote sym side q p h
    simp [BasicBot.place_limit_order, h]
  · intro e remote sym side q sp lp h
    simp [BasicBot.place_stop_limit_order, h]

/-- Closed witness for C2: the three order-operation conjuncts applied
with the constant API-error remote and concrete arguments. -/
theorem C2_api_error_sentinel_and_single_log_witness :
    BasicBot.place_market_order (fun _ => .apiError "down") "BTCUSDT" "BUY" 1 =
      .ok (none, [⟨.error, "Futures market order error: down"⟩]) ∧
    BasicBot.place_limit_order (fun _ => .apiError "down") "BTCUSDT" "BUY" 1 2 =
      .ok (none, [⟨.error, "Futures limit order error: down"⟩]) ∧
    BasicBot.place_stop_limit_order (fun _ => .apiError "down") "BTCUSDT" "SELL" 1 2 3 =
      .ok (none, [⟨.error, "Futures stop-limit order error: down"⟩]) :=
  ⟨C2_api_error_sentinel_and_single_log.2.2.1 "down" _ "BTCUSDT" "BUY" 1
      (fun _ => rfl),
   C2_api_error_sentinel_and_single_log.2.2.2.1 "down" _ "BTCUSDT" "BUY" 1 2
      (fun _ => rfl),
   C2_api_error_sentinel_and_single_log.2.2.2.2.1 "down" _ "BTCUSDT" "SELL" 1 2 3
      (fun _ => rfl)⟩

/-- C3: for every input, the order `place_limit_order` submits carries
time-in-force GTC, and the order `place_stop_limit_order` submits
carries time-in-force GTC and working type MARK_PRICE. -/
theorem C3_gtc_and_mark_price :
    ∀ (sym side : String) (q p sp lp : Rat),
      (BasicBot.limit_order_request sym side q p).timeInForce = some "GTC" ∧
      (BasicBot.stop_limit_order_request sym side q sp lp).timeInForce = some "GTC" ∧
      (BasicBot.stop_limit_order_request sym side q sp lp).workingType =
        some "MARK_PRICE" :=
  fun _ _ _ _ _ _ => ⟨rfl, rfl, rfl⟩

/-- C10: each facade operation catches only the API exception type; an
exception of any other type raised by the remote call propagates out of
the method uncaught (the method's result is the propagating exception,
never the sentinel value). -/
theorem C10_other_exceptions_propagate :
    (∀ (e : String),
      BasicBot.get_account_balance (α := String) (.otherExn e) = .error e) ∧
    (∀ (e s : String),
      BasicBot.validate_symbol (.otherExn e) s = .error e) ∧
    (∀ (e sym side : String) (q : Rat),
      BasicBot.place_market_order (fun _ => .otherExn e) sym side q = .error e) ∧
    (∀ (e sym side : String) (q p : Rat),
      BasicBot.place_limit_order (fun _ => .otherExn e) sym side q p = .error e) ∧
    (∀ (e sym side : String) (q sp lp : Rat),
      BasicBot.place_stop_limit_order (fun _ => .otherExn e) sym side q sp lp =
        .error e) ∧
    (∀ (e : String),
      BasicBot.get_order_status (.otherExn e) = .error e) ∧
    (∀ (e : String) (s : Option String),
      BasicBot.get_position_info (.otherExn e) s = .error e) :=
  ⟨fun _ => rfl, fun _ _ => rfl, fun _ _ _ _ => rfl, fun _ _ _ _ _ => rfl,
   fun _ _ _ _ _ _ => rfl, fun _ => rfl, fun _ _ => rfl⟩

/-- C4 counterexample: `get_position_info` called with a symbol filter
does not return a successful remote response unchanged — with response
`[BTCUSDT record]` and argument `"ETHUSDT"` the facade returns the empty
filtered list, not the response. -/
theorem C4_counterexample :
    facadeValue (BasicBot.get_position_info
        (.ok [⟨"BTCUSDT", "0.5", "80000", "1.0"⟩]) (some "ETHUSDT")) =
      some (some []) ∧
    ([] : List PositionRecord) ≠ [⟨"BTCUSDT", "0.5", "80000", "1.0"⟩] := by
  exact ⟨rfl, by decide⟩

/-- C4 amended: a successful remote response is returned unchanged by
`get_account_balance`, the three order operations, `get_order_status`,
and `get_position_info` when called without a symbol argument
(`validate_symbol` instead returns a membership boolean, and
`get_position_info` with a truthy symbol returns the filtered sublist). -/
theorem C4_amended_success_passthrough :
    (∀ (α : Type) (b : α),
      facadeValue (BasicBot.get_account_balance (.ok b)) = some (some b)) ∧
    (∀ (v sym side : String) (q : Rat),
      facadeValue (BasicBot.place_market_order (fun _ => .ok v) sym side q) =
        some (some v)) ∧
    (∀ (v sym side : String) (q p : Rat),
      facadeValue (BasicBot.place_limit_order (fun _ => .ok v) sym side q p) =
        some (some v)) ∧
    (∀ (v sym side : String) (q sp lp : Rat),
      facadeValue
          (BasicBot.place_stop_limit_order (fun _ => .ok v) sym side q sp lp) =
        some (some v)) ∧
    (∀ (v : String),
      facadeValue (BasicBot.get_order_status (.ok v)) = some (some v)) ∧
    (∀ (ps : List PositionRecord),
      facadeValue (BasicBot.get_position_info (.ok ps) none) = some (some ps)) :=
  ⟨fun _ _ => rfl, fun _ _ _ _ => rfl, fun _ _ _ _ _ => rfl,
   fun _ _ _ _ _ _ => rfl, fun _ => rfl, fun _ => rfl⟩

/-- C7 counterexample: with the non-`None` symbol argument `""` and
remote response `[BTCUSDT record]`, `get_position_info` returns the full
list (the Python truthiness test `if symbol:` treats the empty string
like `None`), whereas the sublist of records whose symbol equals `""` is
empty. -/
theorem C7_counterexample :
    facadeValue (BasicBot.get_position_info
        (.ok [⟨"BTCUSDT", "0.5", "80000", "1.0"⟩]) (some "")) =
      some (some [⟨"BTCUSDT", "0.5", "80000", "1.0"⟩]) ∧
    List.filter (fun p => p.symbol = "")
        [(⟨"BTCUSDT", "0.5", "80000", "1.0"⟩ : PositionRecord)] = [] := by
  exact ⟨rfl, by decide⟩

/-- C7 amended: for every nonempty symbol argument, `get_position_info`
returns exactly the order-preserving sublist of records whose
`'symbol'` field equals the argument; with no symbol argument, or with
the (falsy) empty-string argument, it returns the full list; on a raised
API error it returns the sentinel `None`. -/
theorem C7_amended_position_filter :
    (∀ (ps : List PositionRecord) (s : String), s ≠ "" →
      facadeValue (BasicBot.get_position_info (.ok ps) (some s)) =
        some (some (ps.filter (fun p => p.symbol = s)))) ∧
    (∀ (ps : List PositionRecord),
      facadeValue (BasicBot.get_position_info (.ok ps) none) = some (some ps)) ∧
    (∀ (ps : List PositionRecord),
      facadeValue (BasicBot.get_position_info (.ok ps) (some "")) =
        some (some ps)) ∧
    (∀ (e : String) (s : Option String),
      facadeValue (BasicBot.get_position_info (.apiError e) s) = some none) := by
  refine ⟨?_, fun _ => rfl, fun _ => rfl, fun _ _ => rfl⟩
  intro ps s hs
  simp [BasicBot.get_position_info, facadeValue, Except.toOption, hs]

/-- Closed witness for C7 amended: the nonempty-symbol conjunct applied
at a concrete response list and symbol, keeping exactly the matching
record. -/
theorem C7_amended_position_filter_witness :
    facadeValue (BasicBot.get_position_info
        (.ok [⟨"BTCUSDT", "0.5", "80000", "1.0"⟩,
              ⟨"ETHUSDT", "2", "1800", "0.0"⟩]) (some "ETHUSDT")) =
      some (some (List.filter (fun p => p.symbol = "ETHUSDT")
        [(⟨"BTCUSDT", "0.5", "80000", "1.0"⟩ : PositionRecord),
         ⟨"ETHUSDT", "2", "1800", "0.0"⟩])) :=
  C7_amended_position_filter.1
    [⟨"BTCUSDT", "0.5", "80000", "1.0"⟩, ⟨"ETHUSDT", "2", "1800", "0.0"⟩]
    "ETHUSDT" (by decide)

/-- Concatenation of a list of strings, used to state the formatting
claims. -/
def concatAll : List String → String
  | [] => ""
  | x :: xs => x ++ concatAll xs

/-- When every balance string parses, `format_balance` returns exactly
the concatenation of the per-record lines of the positive-balance
records. -/
theorem format_balance_eq_concat (l : List BalanceRecord)
    (h : ∀ item ∈ l, (pyFloat item.balance).isSome) :
    format_balance l = .ok (concatAll (l.filterMap balance_line)) := by
  induction l with
  | nil => rfl
  | cons item rest ih =>
    obtain ⟨v, hv⟩ := Option.isSome_iff_exists.mp (h item (List.mem_cons_self _ _))
    have hrest := ih (fun i hi => h i (List.mem_cons_of_mem _ hi))
    by_cases hpos : v > 0 <;>
      simp [format_balance, balance_line, hv, hrest, hpos, concatAll]

/-- When every position-amount string parses, the loop of
`format_position_info` produces exactly the concatenation of the
per-record blocks of the nonzero-amount records. -/
theorem format_position_blocks_eq_concat (l : List PositionRecord)
    (h : ∀ p ∈ l, (pyFloat p.positionAmt).isSome) :
    format_position_blocks l = .ok (concatAll (l.filterMap position_block)) := by
  induction l with
  | nil => rfl
  | cons p rest ih =>
    obtain ⟨v, hv⟩ := Option.isSome_iff_exists.mp (h p (List.mem_cons_self _ _))
    have hrest := ih (fun i hi => h i (List.mem_cons_of_mem _ hi))
    by_cases hz : v = 0 <;>
      simp [format_position_blocks, position_block, hv, hrest, hz, concatAll]

/-- C5: `format_balance` produces exactly one line per record whose
balance parses to a positive number (the line carrying that record's
asset and balance string) and no line for the other records; in
particular the USDT/BTC example keeps the USDT line and drops the
zero-balance BTC line. -/
theorem C5_format_balance_lines :
    (∀ (l : List BalanceRecord), (∀ item ∈ l, (pyFloat item.balance).isSome) →
      format_balance l = .ok (concatAll (l.filterMap balance_line))) ∧
    format_balance [⟨"USDT", "100.0"⟩, ⟨"BTC", "0"⟩] =
      .ok "Asset: USDT, Balance: 100.0\n" :=
  ⟨format_balance_eq_concat, rfl⟩

/-- Closed witness for C5: the general conjunct applied at the concrete
two-record list. -/
theorem C5_format_balance_lines_witness :
    format_balance [⟨"USDT", "100.0"⟩, ⟨"BTC", "0"⟩] =
      .ok (concatAll (List.filterMap balance_line
        [(⟨"USDT", "100.0"⟩ : BalanceRecord), ⟨"BTC", "0"⟩])) :=
  C5_format_balance_lines.1 [⟨"USDT", "100.0"⟩, ⟨"BTC", "0"⟩] (by decide)

/-- C6: when every record's position amount parses to zero,
`format_position_info` returns exactly the no-positions message; and
when every amount parses, the output is the concatenation of the
per-record blocks (symbol, amount, entry price, unrealized PnL each on
its own line, then a separator line) of the nonzero-amount records —
unless no block was produced, in which case it is the no-positions
message. -/
theorem C6_format_position_info :
    (∀ (l : List PositionRecord), (∀ p ∈ l, pyFloat p.positionAmt = some 0) →
      format_position_info l = .ok "No open positions found.") ∧
    (∀ (l : List PositionRecord), (∀ p ∈ l, (pyFloat p.positionAmt).isSome) →
      format_position_info l =
        .ok (if concatAll (l.filterMap position_block) = "" then
               "No open positions found."
             else concatAll (l.filterMap position_block))) := by
  have hgen : ∀ (l : List PositionRecord),
      (∀ p ∈ l, (pyFloat p.positionAmt).isSome) →
      format_position_info l =
        .ok (if concatAll (l.filterMap position_block) = "" then
               "No open positions found."
             else concatAll (l.filterMap position_block)) := by
    intro l h
    rw [format_position_info, format_position_blocks_eq_concat l h]
  refine ⟨?_, hgen⟩
  intro l h
  have hnone : l.filterMap position_block = [] := by
    rw [List.filterMap_eq_nil_iff]
    intro p hp
    simp [position_block, h p hp]
  rw [hgen l (fun p hp => by simp [h p hp]), hnone]
  simp [concatAll]

/-- Closed witness for C6: the all-zero conjunct at a one-record list
with amount "0", and the general conjunct at a one-record list with
amount "0.5" (whose block is emitted). -/
theorem C6_format_position_info_witness :
    format_position_info [⟨"BTCUSDT", "0", "0.0", "0.0"⟩] =
      .ok "No open positions found." ∧
    format_position_info [⟨"BTCUSDT", "0.5", "80000", "12.3"⟩] =
      .ok (if concatAll (List.filterMap position_block
              [(⟨"BTCUSDT", "0.5", "80000", "12.3"⟩ : PositionRecord)]) = "" then
             "No open positions found."
           else concatAll (List.filterMap position_block
              [(⟨"BTCUSDT", "0.5", "80000", "12.3"⟩ : PositionRecord)])) :=
  ⟨C6_format_position_info.1 [⟨"BTCUSDT", "0", "0.0", "0.0"⟩] (by decide),
   C6_format_position_info.2 [⟨"BTCUSDT", "0.5", "80000", "12.3"⟩] (by decide)⟩

/-- C8 counterexample: when symbol validation fails (here: the
exchange-info call raises an API error) and the quantity string "abc" is
not parseable, the market-order submit handler yields the
invalid-symbol failure, not the invalid-input failure, and produces no
invalid-input log entry — the handler never reaches the quantity
parse. -/
theorem C8_counterexample :
    pyFloat "abc" = none ∧
    submit_market_order (.apiError "down") (fun _ => .ok "resp")
        "BTCUSDT" "BUY" "abc" =
      .ok ⟨[.error "Invalid futures symbol!"],
           [⟨.error, "Symbol validation error: down"⟩], false⟩ ∧
    (UiMsg.error "Invalid futures symbol!" ≠ UiMsg.error "Invalid quantity!") := by
  exact ⟨rfl, rfl, by decide⟩

/-- C8 amended: for each order operation of the web front-end, an
unparseable quantity string means the remote order-placement call is
never invoked; and when the symbol passes validation, the operation
yields the invalid-input failure: the invalid-input front-end error
message and exactly one error log entry, with no order call.  (When
symbol validation fails the operation yields the invalid-symbol failure
instead, still without an order call.) -/
theorem C8_invalid_quantity_no_order_call :
    (∀ (ir : RemoteOutcome ExchangeInfo) (orm : OrderRequest → RemoteOutcome String)
        (sym side qs : String), pyFloat qs = none →
      order_called (submit_market_order ir orm sym side qs) = false) ∧
    (∀ (ir : RemoteOutcome ExchangeInfo) (orm : OrderRequest → RemoteOutcome String)
        (sym side qs ps : String), pyFloat qs = none →
      order_called (submit_limit_order ir orm sym side qs ps) = false) ∧
    (∀ (ir : RemoteOutcome ExchangeInfo) (orm : OrderRequest → RemoteOutcome String)
        (sym side qs sps lps : String), pyFloat qs = none →
      order_called (submit_stop_limit_order ir orm sym side qs sps lps) = false) ∧
    (∀ (ei : ExchangeInfo) (orm : OrderRequest → RemoteOutcome String)
        (sym side qs : String),
      sym ∈ ei.symbols.map SymbolInfo.symbol → pyFloat qs = none →
      submit_market_order (.ok ei) orm sym side qs =
        .ok ⟨[.error "Invalid quantity!"],
             [⟨.info, "Symbol " ++ sym ++ " validated for futures trading"⟩,
              ⟨.error, "Invalid quantity input: " ++ qs⟩], false⟩) ∧
    (∀ (ei : ExchangeInfo) (orm : OrderRequest → RemoteOutcome String)
        (sym side qs ps : String),
      sym ∈ ei.symbols.map SymbolInfo.symbol → pyFloat qs = none →
      submit_limit_order (.ok ei) orm sym side qs ps =
        .ok ⟨[.error "Invalid quantity or price!"],
             [⟨.info, "Symbol " ++ sym ++ " validated for futures trading"⟩,
              ⟨.error, "Invalid input - quantity: " ++ qs ++ ", price: " ++ ps⟩],
             false⟩) ∧
    (∀ (ei : ExchangeInfo) (orm : OrderRequest → RemoteOutcome String)
        (sym side qs sps lps : String),
      sym ∈ ei.symbols.map SymbolInfo.symbol → pyFloat qs = none →
      submit_stop_limit_order (.ok ei) orm sym side qs sps lps =
        .ok ⟨[.error "Invalid quantity, stop price, or limit price!"],
             [⟨.info, "Symbol " ++ sym ++ " validated for futures trading"⟩,
              ⟨.error, "Invalid input - quantity: " ++ qs ++ ", stop_price: " ++ sps
                ++ ", limit_price: " ++ lps⟩], false⟩) := by
  refine ⟨?_, ?_, ?_, ?_, ?_, ?_⟩
  · intro ir orm sym side qs hq
    cases ir with
    | ok ei =>
      by_cases h : sym ∈ ei.symbols.map SymbolInfo.symbol <;>
        simp [submit_market_order, BasicBot.validate_symbol, order_called, h, hq]
    | apiError e => rfl
    | otherExn e => rfl
  · intro ir orm sym side qs ps hq
    cases ir with
    | ok ei =>
      by_cases h : sym ∈ ei.symbols.map SymbolInfo.symbol <;>
        simp [submit_limit_order, BasicBot.validate_symbol, order_called, h, hq]
    | apiError e => rfl
    | otherExn e => rfl
  · intro ir orm sym side qs sps lps hq
    cases ir with
    | ok ei =>
      by_cases h : sym ∈ ei.symbols.map SymbolInfo.symbol <;>
        simp [submit_stop_limit_order, BasicBot.validate_symbol, order_called, h, hq]
    | apiError e => rfl
    | otherExn e => rfl
  · intro ei orm sym side qs h hq
    simp [submit_market_order, BasicBot.validate_symbol, h, hq]
  · intro ei orm sym side qs ps h hq
    simp [submit_limit_order, BasicBot.validate_symbol, h, hq]
  · intro ei orm sym side qs sps lps h hq
    simp [submit_stop_limit_order, BasicBot.validate_symbol, h, hq]

/-- Closed witness for C8 amended: each conjunct applied at a concrete
exchange-info list containing BTCUSDT and the unparseable quantity
"abc". -/
theorem C8_invalid_quantity_no_order_call_witness :
    order_called (submit_market_order (.ok ⟨[⟨"BTCUSDT"⟩]⟩) (fun _ => .ok "r")
        "BTCUSDT" "BUY" "abc") = false ∧
    order_called (submit_limit_order (.ok ⟨[⟨"BTCUSDT"⟩]⟩) (fun _ => .ok "r")
        "BTCUSDT" "BUY" "abc" "80000") = false ∧
    order_called (submit_stop_limit_order (.ok ⟨[⟨"BTCUSDT"⟩]⟩) (fun _ => .ok "r")
        "BTCUSDT" "BUY" "abc" "81000" "81200") = false ∧
    submit_market_order (.ok ⟨[⟨"BTCUSDT"⟩]⟩) (fun _ => .ok "r")
        "BTCUSDT" "BUY" "abc" =
      .ok ⟨[.error "Invalid quantity!"],
           [⟨.info, "Symbol BTCUSDT validated for futures trading"⟩,
            ⟨.error, "Invalid quantity input: abc"⟩], false⟩ ∧
    submit_limit_order (.ok ⟨[⟨"BTCUSDT"⟩]⟩) (fun _ => .ok "r")
        "BTCUSDT" "BUY" "abc" "80000" =
      .ok ⟨[.error "Invalid quantity or price!"],
           [⟨.info, "Symbol BTCUSDT validated for futures trading"⟩,
            ⟨.error, "Invalid input - quantity: abc, price: 80000"⟩], false⟩ ∧
    submit_stop_limit_order (.ok ⟨[⟨"BTCUSDT"⟩]⟩) (fun _ => .ok "r")
        "BTCUSDT" "BUY" "abc" "81000" "81200" =
      .ok ⟨[.error "Invalid quantity, stop price, or limit price!"],
           [⟨.info, "Symbol BTCUSDT validated for futures trading"⟩,
            ⟨.error, "Invalid input - quantity: abc, stop_price: 81000, limit_price: 81200"⟩],
           false⟩ :=
  ⟨C8_invalid_quantity_no_order_call.1 _ _ "BTCUSDT" "BUY" "abc" (by decide),
   C8_invalid_quantity_no_order_call.2.1 _ _ "BTCUSDT" "BUY" "abc" "80000"
     (by decide),
   C8_invalid_quantity_no_order_call.2.2.1 _ _ "BTCUSDT" "BUY" "abc" "81000"
     "81200" (by decide),
   C8_invalid_quantity_no_order_call.2.2.2.1 ⟨[⟨"BTCUSDT"⟩]⟩ _ "BTCUSDT" "BUY"
     "abc" (by decide) (by decide),
   C8_invalid_quantity_no_order_call.2.2.2.2.1 ⟨[⟨"BTCUSDT"⟩]⟩ _ "BTCUSDT" "BUY"
     "abc" "80000" (by decide) (by decide),
   C8_invalid_quantity_no_order_call.2.2.2.2.2 ⟨[⟨"BTCUSDT"⟩]⟩ _ "BTCUSDT" "BUY"
     "abc" "81000" "81200" (by decide) (by decide)⟩

/-- C9: when either credential environment variable is absent, `main`
displays the missing-credentials error and returns before the client is
constructed: the startup result is `halted`, under which no facade
operation (hence no remote call) runs. -/
theorem C9_missing_credentials_halt :
    ∀ (env : String → Option String),
      env "API_KEY" = none ∨ env "API_SECRET" = none →
      main_startup env = .halted "API Key or Secret not found in .env file!" := by
  intro env h
  rcases h with h | h <;> simp [main_startup, h]

/-- Closed witness for C9: the empty environment halts startup. -/
theorem C9_missing_credentials_halt_witness :
    main_startup (fun _ => none) =
      .halted "API Key or Secret not found in .env file!" :=
  C9_missing_credentials_halt (fun _ => none) (Or.inl rfl)
